import Mathlib

/-!
Shallow embedding of the serial-port library (src/lib.rs, src/ffi.rs) and
verification of its specification claims.

Host calls (Windows kernel32 primitives) are modelled by their results:
each fallible call yields a `(result, status)` pair, and sequences of calls
are modelled by threading a script of pending host responses and a trace of
calls issued, so that ordering and call-count properties are expressible.
Machine integers (`DWORD`, `WORD`, `BYTE`, `c_int`) are modelled as `Nat`
or `Int`; bytes as `Nat`.
-/

namespace SerialWin

/-- The `std::io::ErrorKind` enumeration of the Rust standard library, as
available to the source (variants actually produced by this library are
`AlreadyExists`, `NotFound`, `InvalidInput`, `Other`, `Interrupted`,
`TimedOut`; the rest are included for fidelity to the enum). There is no
resource-exhausted variant. -/
inductive ErrorKind where
  | notFound
  | permissionDenied
  | connectionRefused
  | connectionReset
  | connectionAborted
  | notConnected
  | addrInUse
  | addrNotAvailable
  | brokenPipe
  | alreadyExists
  | wouldBlock
  | invalidInput
  | timedOut
  | writeZero
  | interrupted
  | other
  deriving DecidableEq

/-- A `std::io::Error`: a kind together with the message string it was
constructed with (`Error::new(kind, msg)`). -/
structure IoError where
  kind : ErrorKind
  message : String
  deriving DecidableEq

/-- Error code constants. `ERROR_INVALID_USER_BUFFER` and
`ERROR_NOT_ENOUGH_MEMORY` are declared in src/ffi.rs (lines 28-29); the
others come from the `libc` crate's Windows constants. -/
def ERROR_ACCESS_DENIED : Int := 5

def ERROR_FILE_NOT_FOUND : Int := 2

def ERROR_INVALID_USER_BUFFER : Int := 1784

def ERROR_NOT_ENOUGH_MEMORY : Int := 8

def ERROR_OPERATION_ABORTED : Int := 995

def ERROR_INVALID_HANDLE : Int := 6

/-- Rendering of `{:x}` (lower hex) for a `c_int` error code: the two's
complement bit pattern of the 32-bit value in base 16. -/
def hexStr (code : Int) : String :=
  (Nat.toDigits 16 ((code % (2 ^ 32)).toNat)).asString

/-- `system_to_io_err` from src/lib.rs lines 40-56: maps an operation name
and a raw host error code to an `io::Error`. The message is the
interpolation of the format string
`Operation \x7b\x7d failed with code 0x\x7b:x\x7d and message "\x7b\x7d"`. -/
def system_to_io_err (operation : String) (error_code : Int) : IoError :=
  let p :=
    if error_code = ERROR_ACCESS_DENIED then
      (ErrorKind.alreadyExists, "Access denied. Resource might be busy")
    else if error_code = ERROR_FILE_NOT_FOUND then
      (ErrorKind.notFound, "Serial port not found")
    else if error_code = ERROR_INVALID_USER_BUFFER then
      (ErrorKind.invalidInput, "Supplied buffer is invalid")
    else if error_code = ERROR_NOT_ENOUGH_MEMORY then
      (ErrorKind.other, "Too many I/O requests, not enough memory")
    else if error_code = ERROR_OPERATION_ABORTED then
      (ErrorKind.interrupted, "Operation was canceled")
    else if error_code = ERROR_INVALID_HANDLE then
      (ErrorKind.invalidInput, "Communications handle is invalid")
    else
      (ErrorKind.other, "unmatched error")
  { kind := p.1
    message := "Operation `" ++ operation ++ "` failed with code 0x" ++
      hexStr error_code ++ " and message \"" ++ p.2 ++ "\"" }

/-- Outcome of one host `ReadFile` call on this handle: either overall
success, delivering `data` into the caller's buffer (so `n_bytes_read`
is `data.length`), or failure with a `GetLastError` code. -/
inductive HostRead where
  | ok (data : List Nat)
  | fail (err : Int)
  deriving DecidableEq

/-- The body of `Connection`'s `io::Read::read` impl (src/lib.rs lines
227-245) after the empty-buffer early return: the host `ReadFile` outcome
is inspected; success with zero bytes becomes a timed-out error, success
with `k` bytes becomes `Ok k`, and failure is translated with operation
name `read`. Returns the byte count together with the data placed in the
buffer. -/
def conn_read_core (h : HostRead) : Except IoError (Nat × List Nat) :=
  match h with
  | .ok data =>
    if data.length = 0 then
      .error { kind := .timedOut, message := "Operation timed out" }
    else
      .ok (data.length, data)
  | .fail err => .error (system_to_io_err "read" err)

/-- `Connection`'s `io::Read::read` (src/lib.rs lines 222-246) on a buffer
of length `n`, given the stream of pending host `ReadFile` responses. A
zero-length buffer returns `Ok 0` at once, consuming no host response;
otherwise one response is consumed and handled by `conn_read_core`.
`none` means the model ran out of scripted host responses. -/
def conn_read (n : Nat) (stream : List HostRead) :
    Option (Except IoError (Nat × List Nat) × List HostRead) :=
  if n = 0 then
    some (.ok (0, []), stream)
  else
    match stream with
    | [] => none
    | h :: rest => some (conn_read_core h, rest)

/-- `Connection::read_until` (src/lib.rs lines 190-214): repeatedly reads a
single byte via `Connection`'s `read` into a one-byte buffer initialised to
`0` (so the observed byte is `data.headD 0`); a read error returns at once,
`Ok 0` breaks the loop into the `Delimiter was not found` failure (mirrored
faithfully even though `conn_read_core` never produces `Ok 0`), the
delimiter returns `Ok buf.length` without appending, and any other byte is
pushed onto `buf`. Returns the result paired with the final buffer
contents; `none` means the scripted host responses ran out. -/
def read_until (delim : Nat) (buf : List Nat) (stream : List HostRead) :
    Option (Except IoError Nat × List Nat) :=
  match stream with
  | [] => none
  | h :: rest =>
    match conn_read_core h with
    | .error e => some (.error e, buf)
    | .ok (n, data) =>
      if n = 0 then
        some (.error { kind := .other, message := "Delimiter was not found" }, buf)
      else
        let byte0 := data.headD 0
        let buf_len := buf.length
        if byte0 = delim then
          some (.ok buf_len, buf)
        else
          read_until delim (buf ++ [byte0]) rest

/-- A pure incoming byte stream, delivered to the single-byte reads of
`read_until` one byte per successful host call. -/
def byteStream (bs : List Nat) : List HostRead :=
  bs.map (fun b => HostRead.ok [b])

/-- Outcome of one host `WriteFile` call: overall success with the host's
count of bytes written, or failure with a `GetLastError` code. -/
inductive HostWrite where
  | ok (n_bytes_written : Nat)
  | fail (err : Int)
  deriving DecidableEq

/-- `Connection`'s `io::Write::write` (src/lib.rs lines 249-266): the host
`WriteFile` call is issued unconditionally (no empty-buffer special case),
one response is consumed; success returns `Ok` of the host-reported count
and failure is translated with operation name `write`. `none` means no
scripted host response was available for the call. -/
def conn_write (buf : List Nat) (stream : List HostWrite) :
    Option (Except IoError Nat × List HostWrite) :=
  match stream with
  | [] => none
  | h :: rest =>
    some
      (match h with
       | .ok n => .ok n
       | .fail err => .error (system_to_io_err "write" err),
       rest)

/-- The two DTR bit positions of the 16-bit `DCBFlags` word
(src/ffi.rs lines 38-39). -/
def DCBFDtrControl_lo : Nat := 0x0010

def DCBFDtrControl_hi : Nat := 0x0020

/-- `bitflags` `remove` on the 16-bit flag word: `bits &= !other.bits`
(complement within `WORD`). -/
def flags_remove (f m : Nat) : Nat := f &&& (0xFFFF ^^^ m)

/-- `bitflags` `insert` on the flag word: `bits |= other.bits`. -/
def flags_insert (f m : Nat) : Nat := f ||| m

/-- The `DTR_CONTROL` mode enumeration (src/ffi.rs lines 117-121). -/
inductive DTR_CONTROL where
  | DISABLE
  | ENABLE
  | HANDSHAKE
  deriving DecidableEq

/-- The `DCB` device control block (src/ffi.rs lines 73-92); integer
fields are modelled as `Nat`. -/
structure DCB where
  DCBlength : Nat
  BaudRate : Nat
  flags : Nat
  fDummy : Nat
  wReserved : Nat
  XonLim : Nat
  XoffLim : Nat
  ByteSize : Nat
  Parity : Nat
  StopBits : Nat
  XonChar : Nat
  XoffChar : Nat
  ErrorChar : Nat
  EofChar : Nat
  EvtChar : Nat
  wReserved1 : Nat
  deriving DecidableEq

/-- `DCB::set_dtr_control` (src/ffi.rs lines 95-104): DISABLE removes both
DTR bits, ENABLE removes the high bit then inserts the low bit, HANDSHAKE
inserts both bits. -/
def DCB.set_dtr_control (d : DCB) (control : DTR_CONTROL) : DCB :=
  match control with
  | .DISABLE =>
    { d with flags := flags_remove d.flags (DCBFDtrControl_lo ||| DCBFDtrControl_hi) }
  | .ENABLE =>
    { d with flags := flags_insert (flags_remove d.flags DCBFDtrControl_hi) DCBFDtrControl_lo }
  | .HANDSHAKE =>
    { d with flags := flags_insert d.flags (DCBFDtrControl_lo ||| DCBFDtrControl_hi) }

/-- Parity and stop-bit constants (src/ffi.rs lines 107-115). -/
def NOPARITY : Nat := 0

def ONESTOPBIT : Nat := 0

/-- Purge direction flags (src/ffi.rs lines 156-159). -/
def PURGE_TXCLEAR : Nat := 0x0004

def PURGE_RXCLEAR : Nat := 0x0008

/-- The `COMMTIMEOUTS` structure (src/ffi.rs lines 164-170). -/
structure COMMTIMEOUTS where
  ReadIntervalTimeout : Nat
  ReadTotalTimeoutMultiplier : Nat
  ReadTotalTimeoutConstant : Nat
  WriteTotalTimeoutMultiplier : Nat
  WriteTotalTimeoutConstant : Nat
  deriving DecidableEq

/-- A host call issued by `Connection` during opening and configuration,
recorded with the arguments that matter to the claims. -/
inductive HostCall where
  | createFile (port : String)
  | getCommState
  | setCommState (dcb : DCB)
  | purgeComm (flags : Nat)
  | setCommTimeouts (t : COMMTIMEOUTS)
  deriving DecidableEq

/-- A scripted host response. `openFail`, `getFail`, `setFail` and
`timeoutsFail` carry the `GetLastError` code observed with the failing
call; `purgeResp` is the (ignored) `PurgeComm` return value. -/
inductive HostResp where
  | openOk
  | openFail (err : Int)
  | getOk (dcb : DCB)
  | getFail (err : Int)
  | setOk
  | setFail (err : Int)
  | purgeResp (b : Bool)
  | timeoutsOk
  | timeoutsFail (err : Int)
  deriving DecidableEq

/-- The host, as seen by one `Connection`: the pending scripted responses,
consumed in order, and the trace of calls issued so far. -/
structure HostScript where
  pending : List HostResp
  trace : List HostCall
  deriving DecidableEq

/-- Issue one host call: consume the next scripted response and record the
call in the trace. `none` when the script is exhausted. -/
def hostCall (c : HostCall) (s : HostScript) : Option (HostResp × HostScript) :=
  match s.pending with
  | [] => none
  | r :: rest => some (r, { pending := rest, trace := s.trace ++ [c] })

/-- Result type of a modelled fallible `Connection` operation: `none` when
the script broke down (exhausted, or a response of the wrong shape),
otherwise the `io::Result` value and the host state after the call. -/
def ConnResult (α : Type) : Type := Option (Except IoError α × HostScript)

/-- Rust `Result::and_then` lifted over the host-script threading. -/
def rbind (x : ConnResult α) (f : α → HostScript → ConnResult β) : ConnResult β :=
  match x with
  | none => none
  | some (.error e, s) => some (.error e, s)
  | some (.ok a, s) => f a s

/-- Rust `Result::map` lifted over the host-script threading. -/
def rmap (x : ConnResult α) (f : α → β) : ConnResult β :=
  match x with
  | none => none
  | some (.error e, s) => some (.error e, s)
  | some (.ok a, s) => some (.ok (f a), s)

/-- `Connection::comm_state` (src/lib.rs lines 107-119): a `GetCommState`
call; failure is translated with operation name `GetCommState`. -/
def comm_state (s : HostScript) : ConnResult DCB :=
  match hostCall .getCommState s with
  | none => none
  | some (.getOk dcb, s1) => some (.ok dcb, s1)
  | some (.getFail err, s1) => some (.error (system_to_io_err "GetCommState" err), s1)
  | some (_, _) => none

/-- `Connection::set_comm_state` (src/lib.rs lines 123-134): a
`SetCommState` call submitting `dcb`; failure is translated with operation
name `SetCommState`. -/
def set_comm_state (dcb : DCB) (s : HostScript) : ConnResult Unit :=
  match hostCall (.setCommState dcb) s with
  | none => none
  | some (.setOk, s1) => some (.ok (), s1)
  | some (.setFail err, s1) => some (.error (system_to_io_err "SetCommState" err), s1)
  | some (_, _) => none

/-- `Connection::set_timeout` (src/lib.rs lines 137-154): one
`SetCommTimeouts` call with all five fields set to `timeout_ms`. -/
def set_timeout (timeout_ms : Nat) (s : HostScript) : ConnResult Unit :=
  match hostCall (.setCommTimeouts
      { ReadIntervalTimeout := timeout_ms
        ReadTotalTimeoutMultiplier := timeout_ms
        ReadTotalTimeoutConstant := timeout_ms
        WriteTotalTimeoutMultiplier := timeout_ms
        WriteTotalTimeoutConstant := timeout_ms }) s with
  | none => none
  | some (.timeoutsOk, s1) => some (.ok (), s1)
  | some (.timeoutsFail err, s1) => some (.error (system_to_io_err "SetCommTimeouts" err), s1)
  | some (_, _) => none

/-- `Connection::set_baud_rate` (src/lib.rs lines 160-162): fresh
`comm_state` read, then write back with only `BaudRate` replaced. -/
def set_baud_rate (baud_rate : Nat) (s : HostScript) : ConnResult Unit :=
  rbind (comm_state s) (fun dcb => set_comm_state { dcb with BaudRate := baud_rate })

/-- `Connection::set_byte_size` (src/lib.rs lines 168-170). -/
def set_byte_size (byte_size : Nat) (s : HostScript) : ConnResult Unit :=
  rbind (comm_state s) (fun dcb => set_comm_state { dcb with ByteSize := byte_size })

/-- `Connection::set_parity` (src/lib.rs lines 176-178). -/
def set_parity (parity : Nat) (s : HostScript) : ConnResult Unit :=
  rbind (comm_state s) (fun dcb => set_comm_state { dcb with Parity := parity })

/-- `Connection::set_stop_bits` (src/lib.rs lines 184-186). -/
def set_stop_bits (stop_bits : Nat) (s : HostScript) : ConnResult Unit :=
  rbind (comm_state s) (fun dcb => set_comm_state { dcb with StopBits := stop_bits })

/-- `Connection::new` (src/lib.rs lines 65-104): `CreateFileW` (failure
translated with operation name `Open port`), then the configuration chain:
read the control block, set DTR to ENABLE and write it back, then
`set_baud_rate`, `set_byte_size 8`, `set_stop_bits ONESTOPBIT`,
`set_parity NOPARITY`, then `PurgeComm` of both directions (result
ignored) and `set_timeout 40`, short-circuited by `and_then` on the first
error. -/
def Connection.new (port : String) (baud_rate : Nat) (s : HostScript) : ConnResult Unit :=
  match hostCall (.createFile port) s with
  | none => none
  | some (.openFail err, s1) => some (.error (system_to_io_err "Open port" err), s1)
  | some (.openOk, s1) =>
    rbind
      (rbind
        (rbind
          (rbind
            (rbind
              (rbind (rmap (comm_state s1) (fun dcb => dcb.set_dtr_control .ENABLE))
                (fun dcb => set_comm_state dcb))
              (fun _ => set_baud_rate baud_rate))
            (fun _ => set_byte_size 8))
          (fun _ => set_stop_bits ONESTOPBIT))
        (fun _ => set_parity NOPARITY))
      (fun _ s2 =>
        match hostCall (.purgeComm (PURGE_RXCLEAR ||| PURGE_TXCLEAR)) s2 with
        | none => none
        | some (_, s3) => set_timeout 40 s3)
  | some (_, _) => none

/-- Outcome of one host `WaitCommEvent` call: overall success with the
observed event mask, or failure with a raw `GetLastError` code. -/
inductive HostWait where
  | ok (mask : Nat)
  | fail (raw : Int)
  deriving DecidableEq

/-- Modelled from the spec: the sources under src/ only declare the host
primitive `WaitCommEvent` (src/ffi.rs lines 177-179); the Event Waiter
object itself is not present there. Following spec section 4.5,
`wait_for_event` blocks until the host reports one or more subscribed
events and returns the observed event mask on success, or the raw host
error code, untranslated, on failure. -/
def wait_for_event (h : HostWait) : Except Int Nat :=
  match h with
  | .ok mask => .ok mask
  | .fail raw => .error raw

/-! ## Claim theorems -/

/-- C8: for the empty (zero-length) buffer, `Connection`'s `read` always
returns `Ok 0` immediately, consuming no host read call (the pending host
response stream is returned untouched). -/
theorem read_empty_buffer_ok_zero (stream : List HostRead) :
    conn_read 0 stream = some (.ok (0, []), stream) := rfl

/-- C1: for every non-empty buffer, host success with zero bytes read
makes `Connection`'s `read` return a timed-out error; a host failure is
translated by the error translator with operation name `read`; and `read`
never returns `Ok` with a zero byte count on a non-empty buffer. -/
theorem read_nonempty_timeout_and_translation (n : Nat) (hn : 0 < n)
    (rest : List HostRead) (err : Int) :
    conn_read n (HostRead.ok [] :: rest)
        = some (.error { kind := ErrorKind.timedOut, message := "Operation timed out" }, rest)
      ∧ conn_read n (HostRead.fail err :: rest)
        = some (.error (system_to_io_err "read" err), rest)
      ∧ ∀ (stream rest' : List HostRead) (k : Nat) (data : List Nat),
          conn_read n stream = some (.ok (k, data), rest') → 0 < k := by
  have hn' : n ≠ 0 := Nat.pos_iff_ne_zero.mp hn
  refine ⟨by simp [conn_read, conn_read_core, hn'], by simp [conn_read, conn_read_core, hn'], ?_⟩
  intro stream rest' k data h
  match stream with
  | [] => simp [conn_read, hn'] at h
  | .ok data' :: tl =>
    by_cases hd0 : data'.length = 0
    · simp [conn_read, conn_read_core, hn', hd0] at h
    · simp [conn_read, conn_read_core, hn', hd0] at h
      omega
  | .fail err' :: tl => simp [conn_read, conn_read_core, hn'] at h

/-- Witness for C1 at buffer length 1: the timeout reinterpretation, the
translated failure for code 6, and a positive count on a successful
one-byte read. -/
theorem read_nonempty_timeout_witness :
    conn_read 1 [HostRead.ok []]
        = some (.error { kind := ErrorKind.timedOut, message := "Operation timed out" }, [])
      ∧ conn_read 1 [HostRead.fail 6] = some (.error (system_to_io_err "read" 6), [])
      ∧ (0 : Nat) < 1 := by
  have h := read_nonempty_timeout_and_translation 1 (by decide) [] 6
  exact ⟨h.1, h.2.1, h.2.2 [HostRead.ok [7]] [] 1 [7] rfl⟩

/-- C10: `Connection`'s `write` has no empty-buffer special case: for
every buffer, including the empty one, exactly one host `WriteFile`
response is consumed; host success returns `Ok` of the host-reported
count (so a zero-byte success is `Ok 0`, never a timeout error), host
failure is translated with operation name `write`, and with no pending
host response the call cannot complete (it is always issued). -/
theorem write_no_empty_special_case (buf : List Nat) (n : Nat) (err : Int)
    (rest : List HostWrite) :
    conn_write buf (HostWrite.ok n :: rest) = some (.ok n, rest)
      ∧ conn_write buf (HostWrite.fail err :: rest)
        = some (.error (system_to_io_err "write" err), rest)
      ∧ conn_write buf [] = none :=
  ⟨rfl, rfl, rfl⟩

/-- C4 counterexample: the raw code `ERROR_NOT_ENOUGH_MEMORY` (8) is
mapped to `ErrorKind.other` — the very same kind as the fallback for an
unmatched code such as 424242 — not to a dedicated resource-exhausted
kind, which does not exist in the error enumeration the code uses. -/
theorem not_enough_memory_maps_to_other :
    (system_to_io_err "read" ERROR_NOT_ENOUGH_MEMORY).kind = ErrorKind.other
      ∧ (system_to_io_err "read" ERROR_NOT_ENOUGH_MEMORY).kind
        = (system_to_io_err "read" 424242).kind :=
  ⟨rfl, rfl⟩

/-- C4 as amended: the translator maps access denied to the
already-exists/busy kind, file not found to not-found, invalid user
buffer and invalid handle to invalid-input, not enough memory to the
other kind (with its distinct message), operation aborted to
interrupted, and every other code to the other kind; and for every
operation name and code the message carries the operation name and the
raw code. -/
theorem system_to_io_err_mapping (op : String) (code : Int) :
    (system_to_io_err op ERROR_ACCESS_DENIED).kind = ErrorKind.alreadyExists
      ∧ (system_to_io_err op ERROR_FILE_NOT_FOUND).kind = ErrorKind.notFound
      ∧ (system_to_io_err op ERROR_INVALID_USER_BUFFER).kind = ErrorKind.invalidInput
      ∧ (system_to_io_err op ERROR_INVALID_HANDLE).kind = ErrorKind.invalidInput
      ∧ (system_to_io_err op ERROR_NOT_ENOUGH_MEMORY).kind = ErrorKind.other
      ∧ (system_to_io_err op ERROR_OPERATION_ABORTED).kind = ErrorKind.interrupted
      ∧ (code ∉ [ERROR_ACCESS_DENIED, ERROR_FILE_NOT_FOUND, ERROR_INVALID_USER_BUFFER,
            ERROR_NOT_ENOUGH_MEMORY, ERROR_OPERATION_ABORTED, ERROR_INVALID_HANDLE] →
          (system_to_io_err op code).kind = ErrorKind.other)
      ∧ ∃ m, (system_to_io_err op code).message
          = "Operation `" ++ op ++ "` failed with code 0x" ++ hexStr code
            ++ " and message \"" ++ m ++ "\"" := by
  refine ⟨rfl, rfl, rfl, rfl, rfl, rfl, ?_, ?_⟩
  · intro hmem
    simp only [List.mem_cons, List.not_mem_nil, or_false, not_or] at hmem
    obtain ⟨h1, h2, h3, h4, h5, h6⟩ := hmem
    simp [system_to_io_err, h1, h2, h3, h4, h5, h6]
  · exact ⟨_, rfl⟩

/-- Witness for C4's fallback clause: the unmatched code 123 on operation
`flush` yields the other kind. -/
theorem system_to_io_err_mapping_witness :
    (system_to_io_err "flush" 123).kind = ErrorKind.other :=
  (system_to_io_err_mapping "flush" 123).2.2.2.2.2.2.1 (by decide)

/-- C5: for every starting control block and every DTR mode,
`set_dtr_control` produces exactly the specified pattern on the two DTR
bits (bit 4 is the low DTR bit, bit 5 the high one): DISABLE gives 00,
ENABLE gives 01 (low set, high clear), HANDSHAKE gives 11; and the pair is
never the remaining combination 10 (high set, low clear). -/
theorem set_dtr_control_patterns (d : DCB) :
    ((d.set_dtr_control .DISABLE).flags.testBit 4 = false
        ∧ (d.set_dtr_control .DISABLE).flags.testBit 5 = false)
      ∧ ((d.set_dtr_control .ENABLE).flags.testBit 4 = true
        ∧ (d.set_dtr_control .ENABLE).flags.testBit 5 = false)
      ∧ ((d.set_dtr_control .HANDSHAKE).flags.testBit 4 = true
        ∧ (d.set_dtr_control .HANDSHAKE).flags.testBit 5 = true)
      ∧ ∀ control : DTR_CONTROL,
          ¬((d.set_dtr_control control).flags.testBit 5 = true
            ∧ (d.set_dtr_control control).flags.testBit 4 = false) := by
  have b1 : Nat.testBit 65487 4 = false := by decide
  have b2 : Nat.testBit 65487 5 = false := by decide
  have b3 : Nat.testBit 65503 4 = true := by decide
  have b4 : Nat.testBit 65503 5 = false := by decide
  have b5 : Nat.testBit 16 4 = true := by decide
  have b6 : Nat.testBit 16 5 = false := by decide
  have b7 : Nat.testBit 48 4 = true := by decide
  have b8 : Nat.testBit 48 5 = true := by decide
  have e1 : (DCBFDtrControl_lo ||| DCBFDtrControl_hi : Nat) = 48 := by decide
  have e2 : ((0xFFFF : Nat) ^^^ 48) = 65487 := by decide
  have e3 : ((0xFFFF : Nat) ^^^ DCBFDtrControl_hi) = 65503 := by decide
  have hd : ∀ b : Bool, (b && false) = false := by decide
  refine ⟨⟨?_, ?_⟩, ⟨?_, ?_⟩, ⟨?_, ?_⟩, ?_⟩
  · simp [DCB.set_dtr_control, flags_remove, e1, e2, Nat.testBit_land, b1]
  · simp [DCB.set_dtr_control, flags_remove, e1, e2, Nat.testBit_land, b2]
  · simp [DCB.set_dtr_control, flags_remove, flags_insert, e3, DCBFDtrControl_lo,
      Nat.testBit_land, Nat.testBit_lor, b3, b5]
  · simp [DCB.set_dtr_control, flags_remove, flags_insert, e3, DCBFDtrControl_lo,
      Nat.testBit_land, Nat.testBit_lor, b4, b6]
  · simp [DCB.set_dtr_control, flags_insert, e1, Nat.testBit_lor, b7]
  · simp [DCB.set_dtr_control, flags_insert, e1, Nat.testBit_lor, b8]
  · intro control
    cases control with
    | DISABLE =>
      simp [DCB.set_dtr_control, flags_remove, e1, e2, Nat.testBit_land, b2]
    | ENABLE =>
      simp [DCB.set_dtr_control, flags_remove, flags_insert, e3, DCBFDtrControl_lo,
        Nat.testBit_land, Nat.testBit_lor, b4, b6]
    | HANDSHAKE =>
      simp [DCB.set_dtr_control, flags_insert, e1, Nat.testBit_lor, b7]

/-- Witness for C5 at the all-zero control block: ENABLE sets the low DTR
bit and leaves the high bit clear. -/
theorem set_dtr_control_patterns_witness :
    (((⟨0, 0, 0, 0, 0, 0, 0, 0, 0, 0, 0, 0, 0, 0, 0, 0⟩ : DCB).set_dtr_control
        .ENABLE).flags.testBit 4 = true)
      ∧ ¬((((⟨0, 0, 0, 0, 0, 0, 0, 0, 0, 0, 0, 0, 0, 0, 0, 0⟩ : DCB).set_dtr_control
          .DISABLE).flags.testBit 5 = true)
        ∧ (((⟨0, 0, 0, 0, 0, 0, 0, 0, 0, 0, 0, 0, 0, 0, 0, 0⟩ : DCB).set_dtr_control
          .DISABLE).flags.testBit 4 = false)) :=
  ⟨(set_dtr_control_patterns ⟨0, 0, 0, 0, 0, 0, 0, 0, 0, 0, 0, 0, 0, 0, 0, 0⟩).2.1.1,
   (set_dtr_control_patterns ⟨0, 0, 0, 0, 0, 0, 0, 0, 0, 0, 0, 0, 0, 0, 0, 0⟩).2.2.2 .DISABLE⟩

/-- C2 counterexample: with delimiter 10 and the non-empty initial buffer
`[0]`, a stream that opens with the delimiter writes zero bytes, yet
`read_until` returns `Ok 1` — the buffer's total length — not the count
of bytes written, which is 0. -/
theorem read_until_counts_whole_buffer :
    read_until 10 [0] (byteStream [10]) = some (.ok 1, [0]) ∧ (1 : Nat) ≠ 0 :=
  ⟨rfl, by decide⟩

/-- C2 as amended: on a stream whose bytes are `pre` (delimiter-free),
then the delimiter, then anything, `read_until` appends exactly `pre` to
the buffer, stops at the delimiter without appending it, and returns `Ok`
of the buffer's length at that point — initial length plus bytes
written — which equals the count of bytes written exactly when the
initial buffer is empty. -/
theorem read_until_delimiter_found (delim : Nat) :
    ∀ pre : List Nat, delim ∉ pre → ∀ post buf : List Nat,
      read_until delim buf (byteStream (pre ++ delim :: post))
        = some (.ok (buf.length + pre.length), buf ++ pre) := by
  intro pre
  induction pre with
  | nil =>
    intro _ post buf
    simp [byteStream, read_until, conn_read_core]
  | cons b pre ih =>
    intro h post buf
    have hb : ¬(b = delim) := fun he => h (by simp [he])
    have h' : delim ∉ pre := fun hm => h (List.mem_cons_of_mem b hm)
    have hrec := ih h' post (buf ++ [b])
    simp only [byteStream, List.map_cons, List.map_append, List.cons_append] at hrec ⊢
    simp [read_until, conn_read_core, hb, hrec, List.append_assoc]
    omega

/-- Witness for C2's amendment: the spec's own example — stream
`abcD rest`, delimiter `D` (68), initially empty buffer — returns `Ok 3`
with buffer `abc` (`[97, 98, 99]`). -/
theorem read_until_delimiter_found_witness :
    read_until 68 [] (byteStream ([97, 98, 99] ++ 68 :: [32, 114, 101, 115, 116]))
      = some (.ok 3, [97, 98, 99]) := by
  have h := read_until_delimiter_found 68 [97, 98, 99] (by decide) [32, 114, 101, 115, 116] []
  simpa using h

/-- C3 counterexample: with delimiter 10, an initially empty buffer and a
stream delivering byte 97 and then ending (host success with zero bytes),
`read_until` fails with the timed-out error produced by `Connection`'s
`read` — not with an other-kind `Delimiter was not found` error — while
the buffer holds the consumed byte. -/
theorem read_until_stream_end_counterexample :
    read_until 10 [] [HostRead.ok [97], HostRead.ok []]
      = some (.error { kind := ErrorKind.timedOut, message := "Operation timed out" }, [97])
      ∧ ErrorKind.timedOut ≠ ErrorKind.other :=
  ⟨rfl, by decide⟩

/-- C3 as amended: when the host single-byte read reports success with
zero bytes before the delimiter is seen, `Connection`'s `read` turns that
into a timed-out error which `read_until` propagates immediately, the
buffer retaining every byte consumed so far; a host read failure
propagates immediately as the translated error likewise; and the loop's
`Delimiter was not found` branch is unreachable, because the underlying
read never returns `Ok` with a zero count. -/
theorem read_until_stream_end_behavior (delim : Nat) :
    (∀ pre : List Nat, delim ∉ pre → ∀ (buf : List Nat) (err : Int) (rest : List HostRead),
        read_until delim buf (byteStream pre ++ HostRead.ok [] :: rest)
          = some (.error { kind := ErrorKind.timedOut, message := "Operation timed out" },
              buf ++ pre)
        ∧ read_until delim buf (byteStream pre ++ HostRead.fail err :: rest)
          = some (.error (system_to_io_err "read" err), buf ++ pre))
      ∧ ∀ (h : HostRead) (k : Nat) (data : List Nat),
          conn_read_core h = .ok (k, data) → 0 < k := by
  constructor
  · intro pre
    induction pre with
    | nil =>
      intro _ buf err rest
      constructor
      · simp [byteStream, read_until, conn_read_core]
      · simp [byteStream, read_until, conn_read_core]
    | cons b pre ih =>
      intro h buf err rest
      have hb : ¬(b = delim) := fun he => h (by simp [he])
      have h' : delim ∉ pre := fun hm => h (List.mem_cons_of_mem b hm)
      have hrec := ih h' (buf ++ [b]) err rest
      constructor
      · have h1 := hrec.1
        simp only [byteStream, List.map_cons, List.cons_append] at h1 ⊢
        simp [read_until, conn_read_core, hb, h1, List.append_assoc]
      · have h2 := hrec.2
        simp only [byteStream, List.map_cons, List.cons_append] at h2 ⊢
        simp [read_until, conn_read_core, hb, h2, List.append_assoc]
  · intro h k data hok
    cases h with
    | ok d =>
      by_cases hd : d.length = 0
      · simp [conn_read_core, hd] at hok
      · simp [conn_read_core, hd] at hok
        omega
    | fail err => simp [conn_read_core] at hok

/-- Witness for C3's amendment: one consumed byte 97, then stream end,
yields the timed-out error with buffer `[97]`; a failing read with code 5
yields the translated error; and a successful one-byte read has a
positive count. -/
theorem read_until_stream_end_behavior_witness :
    read_until 10 [] (byteStream [97] ++ HostRead.ok [] :: [])
        = some (.error { kind := ErrorKind.timedOut, message := "Operation timed out" }, [97])
      ∧ read_until 10 [] (byteStream [97] ++ HostRead.fail 5 :: [])
        = some (.error (system_to_io_err "read" 5), [97])
      ∧ (0 : Nat) < 1 := by
  have h := read_until_stream_end_behavior 10
  have h1 := h.1 [97] (by decide) [] 5 []
  exact ⟨h1.1, h1.2, h.2 (HostRead.ok [7]) 1 [7] rfl⟩

/-- C9: each of the four configuration mutators performs a fresh
`GetCommState` read and then one `SetCommState` write whose submitted
block — written out field by field — has exactly the one target field
replaced and every other field equal to the freshly read value. (A
`HostScript.mk` value lists the pending responses first, the trace of
issued calls second.) -/
theorem setters_read_modify_write (d : DCB) (v : Nat) (rest : List HostResp) :
    set_baud_rate v (HostScript.mk (.getOk d :: .setOk :: rest) [])
        = some (.ok (), HostScript.mk rest
            [.getCommState,
             .setCommState ⟨d.DCBlength, v, d.flags, d.fDummy, d.wReserved, d.XonLim,
               d.XoffLim, d.ByteSize, d.Parity, d.StopBits, d.XonChar, d.XoffChar,
               d.ErrorChar, d.EofChar, d.EvtChar, d.wReserved1⟩])
      ∧ set_byte_size v (HostScript.mk (.getOk d :: .setOk :: rest) [])
        = some (.ok (), HostScript.mk rest
            [.getCommState,
             .setCommState ⟨d.DCBlength, d.BaudRate, d.flags, d.fDummy, d.wReserved, d.XonLim,
               d.XoffLim, v, d.Parity, d.StopBits, d.XonChar, d.XoffChar,
               d.ErrorChar, d.EofChar, d.EvtChar, d.wReserved1⟩])
      ∧ set_parity v (HostScript.mk (.getOk d :: .setOk :: rest) [])
        = some (.ok (), HostScript.mk rest
            [.getCommState,
             .setCommState ⟨d.DCBlength, d.BaudRate, d.flags, d.fDummy, d.wReserved, d.XonLim,
               d.XoffLim, d.ByteSize, v, d.StopBits, d.XonChar, d.XoffChar,
               d.ErrorChar, d.EofChar, d.EvtChar, d.wReserved1⟩])
      ∧ set_stop_bits v (HostScript.mk (.getOk d :: .setOk :: rest) [])
        = some (.ok (), HostScript.mk rest
            [.getCommState,
             .setCommState ⟨d.DCBlength, d.BaudRate, d.flags, d.fDummy, d.wReserved, d.XonLim,
               d.XoffLim, d.ByteSize, d.Parity, v, d.XonChar, d.XoffChar,
               d.ErrorChar, d.EofChar, d.EvtChar, d.wReserved1⟩]) :=
  ⟨rfl, rfl, rfl, rfl⟩

/-- C6: opening performs, in order, the host open call (a nonexistent
port failing with not-found before any control-block call appears in the
trace), the DTR-ENABLE control-block round-trip, four independent
read-modify-write round-trips for baud rate, byte size 8, stop bits one
and parity none, a purge of both directions whose result is ignored, and
the fixed default timeout of 40 applied to all five fields; and the
sequence short-circuits at every possible first failure point, whose
translated error becomes the result, with no later host call issued. -/
theorem open_configuration_sequence (port : String) (baud : Nat) (d0 d1 d2 d3 d4 : DCB)
    (b : Bool) (rest : List HostResp) (err : Int) :
    (Connection.new port baud (HostScript.mk (.openFail ERROR_FILE_NOT_FOUND :: rest) [])
        = some (.error (system_to_io_err "Open port" ERROR_FILE_NOT_FOUND),
            HostScript.mk rest [.createFile port])
      ∧ (system_to_io_err "Open port" ERROR_FILE_NOT_FOUND).kind = ErrorKind.notFound)
      ∧ Connection.new port baud
          (HostScript.mk [.openOk, .getOk d0, .setOk, .getOk d1, .setOk, .getOk d2, .setOk,
            .getOk d3, .setOk, .getOk d4, .setOk, .purgeResp b, .timeoutsOk] [])
        = some (.ok (),
            HostScript.mk []
              [.createFile port, .getCommState,
               .setCommState (d0.set_dtr_control .ENABLE), .getCommState,
               .setCommState { d1 with BaudRate := baud }, .getCommState,
               .setCommState { d2 with ByteSize := 8 }, .getCommState,
               .setCommState { d3 with StopBits := ONESTOPBIT }, .getCommState,
               .setCommState { d4 with Parity := NOPARITY },
               .purgeComm (PURGE_RXCLEAR ||| PURGE_TXCLEAR),
               .setCommTimeouts ⟨40, 40, 40, 40, 40⟩])
      ∧ Connection.new port baud (HostScript.mk (.openOk :: .getFail err :: rest) [])
        = some (.error (system_to_io_err "GetCommState" err),
            HostScript.mk rest [.createFile port, .getCommState])
      ∧ Connection.new port baud
          (HostScript.mk (.openOk :: .getOk d0 :: .setFail err :: rest) [])
        = some (.error (system_to_io_err "SetCommState" err),
            HostScript.mk rest
              [.createFile port, .getCommState, .setCommState (d0.set_dtr_control .ENABLE)])
      ∧ Connection.new port baud
          (HostScript.mk (.openOk :: .getOk d0 :: .setOk :: .getFail err :: rest) [])
        = some (.error (system_to_io_err "GetCommState" err),
            HostScript.mk rest
              [.createFile port, .getCommState, .setCommState (d0.set_dtr_control .ENABLE),
               .getCommState])
      ∧ Connection.new port baud
          (HostScript.mk (.openOk :: .getOk d0 :: .setOk :: .getOk d1 :: .setFail err :: rest) [])
        = some (.error (system_to_io_err "SetCommState" err),
            HostScript.mk rest
              [.createFile port, .getCommState, .setCommState (d0.set_dtr_control .ENABLE),
               .getCommState, .setCommState { d1 with BaudRate := baud }])
      ∧ Connection.new port baud
          (HostScript.mk ([.openOk, .getOk d0, .setOk, .getOk d1, .setOk]
            ++ .getFail err :: rest) [])
        = some (.error (system_to_io_err "GetCommState" err),
            HostScript.mk rest
              [.createFile port, .getCommState, .setCommState (d0.set_dtr_control .ENABLE),
               .getCommState, .setCommState { d1 with BaudRate := baud }, .getCommState])
      ∧ Connection.new port baud
          (HostScript.mk ([.openOk, .getOk d0, .setOk, .getOk d1, .setOk, .getOk d2]
            ++ .setFail err :: rest) [])
        = some (.error (system_to_io_err "SetCommState" err),
            HostScript.mk rest
              [.createFile port, .getCommState, .setCommState (d0.set_dtr_control .ENABLE),
               .getCommState, .setCommState { d1 with BaudRate := baud }, .getCommState,
               .setCommState { d2 with ByteSize := 8 }])
      ∧ Connection.new port baud
          (HostScript.mk ([.openOk, .getOk d0, .setOk, .getOk d1, .setOk, .getOk d2, .setOk]
            ++ .getFail err :: rest) [])
        = some (.error (system_to_io_err "GetCommState" err),
            HostScript.mk rest
              [.createFile port, .getCommState, .setCommState (d0.set_dtr_control .ENABLE),
               .getCommState, .setCommState { d1 with BaudRate := baud }, .getCommState,
               .setCommState { d2 with ByteSize := 8 }, .getCommState])
      ∧ Connection.new port baud
          (HostScript.mk ([.openOk, .getOk d0, .setOk, .getOk d1, .setOk, .getOk d2, .setOk,
            .getOk d3] ++ .setFail err :: rest) [])
        = some (.error (system_to_io_err "SetCommState" err),
            HostScript.mk rest
              [.createFile port, .getCommState, .setCommState (d0.set_dtr_control .ENABLE),
               .getCommState, .setCommState { d1 with BaudRate := baud }, .getCommState,
               .setCommState { d2 with ByteSize := 8 }, .getCommState,
               .setCommState { d3 with StopBits := ONESTOPBIT }])
      ∧ Connection.new port baud
          (HostScript.mk ([.openOk, .getOk d0, .setOk, .getOk d1, .setOk, .getOk d2, .setOk,
            .getOk d3, .setOk] ++ .getFail err :: rest) [])
        = some (.error (system_to_io_err "GetCommState" err),
            HostScript.mk rest
              [.createFile port, .getCommState, .setCommState (d0.set_dtr_control .ENABLE),
               .getCommState, .setCommState { d1 with BaudRate := baud }, .getCommState,
               .setCommState { d2 with ByteSize := 8 }, .getCommState,
               .setCommState { d3 with StopBits := ONESTOPBIT }, .getCommState])
      ∧ Connection.new port baud
          (HostScript.mk ([.openOk, .getOk d0, .setOk, .getOk d1, .setOk, .getOk d2, .setOk,
            .getOk d3, .setOk, .getOk d4] ++ .setFail err :: rest) [])
        = some (.error (system_to_io_err "SetCommState" err),
            HostScript.mk rest
              [.createFile port, .getCommState, .setCommState (d0.set_dtr_control .ENABLE),
               .getCommState, .setCommState { d1 with BaudRate := baud }, .getCommState,
               .setCommState { d2 with ByteSize := 8 }, .getCommState,
               .setCommState { d3 with StopBits := ONESTOPBIT }, .getCommState,
               .setCommState { d4 with Parity := NOPARITY }])
      ∧ Connection.new port baud
          (HostScript.mk ([.openOk, .getOk d0, .setOk, .getOk d1, .setOk, .getOk d2, .setOk,
            .getOk d3, .setOk, .getOk d4, .setOk, .purgeResp b] ++ .timeoutsFail err :: rest) [])
        = some (.error (system_to_io_err "SetCommTimeouts" err),
            HostScript.mk rest
              [.createFile port, .getCommState, .setCommState (d0.set_dtr_control .ENABLE),
               .getCommState, .setCommState { d1 with BaudRate := baud }, .getCommState,
               .setCommState { d2 with ByteSize := 8 }, .getCommState,
               .setCommState { d3 with StopBits := ONESTOPBIT }, .getCommState,
               .setCommState { d4 with Parity := NOPARITY },
               .purgeComm (PURGE_RXCLEAR ||| PURGE_TXCLEAR),
               .setCommTimeouts ⟨40, 40, 40, 40, 40⟩]) :=
  ⟨⟨rfl, rfl⟩, rfl, rfl, rfl, rfl, rfl, rfl, rfl, rfl, rfl, rfl, rfl, rfl⟩

/-- C7: `wait_for_event` returns the observed event mask when the host
wait succeeds, and the raw, untranslated host error code when it fails
(the error side of its result type is the raw code, not a translated
structured error). -/
theorem wait_for_event_raw_code (mask : Nat) (raw : Int) :
    wait_for_event (.ok mask) = .ok mask ∧ wait_for_event (.fail raw) = .error raw :=
  ⟨rfl, rfl⟩

end SerialWin
